import Mathlib

/-!
Verification development for lib/rpmchecksig.c: the range-based package
signature verification pipeline and the multi-key armored pubkey importer.

External collaborators (header-blob decoding, the signature-item deriver
rpmsinfoInit, the cryptographic checker rpmVerifySignature, PGP armor and
packet parsing, the keyring store, macro expansion, file I/O) are not part
of the translated source; their outcomes appear as data fields so that the
control flow of rpmchecksig.c itself is translated faithfully.
-/

/-- Return codes, mirroring rpmRC from rpmtypes.h
(RPMRC_OK, RPMRC_NOTFOUND, RPMRC_FAIL, RPMRC_NOTTRUSTED, RPMRC_NOKEY). -/
inductive rpmRC where
  | RPMRC_OK
  | RPMRC_NOTFOUND
  | RPMRC_FAIL
  | RPMRC_NOTTRUSTED
  | RPMRC_NOKEY
deriving DecidableEq, Repr

/-- The signature tags dispatched on by formatDefault's switch statement.
otherTag stands for the default case. -/
inductive SigTag where
  | RPMSIGTAG_SIZE
  | RPMSIGTAG_SHA1
  | RPMSIGTAG_SHA256
  | RPMSIGTAG_MD5
  | RPMSIGTAG_RSA
  | RPMSIGTAG_PGP5
  | RPMSIGTAG_PGP
  | RPMSIGTAG_DSA
  | RPMSIGTAG_GPG
  | RPMTAG_PAYLOADDIGEST
  | otherTag
deriving DecidableEq, Repr

/-- Range bit covering the main header bytes (RPMSIG_HEADER = 1 << 0). -/
def RPMSIG_HEADER : Nat := 1

/-- Range bit covering the payload bytes (RPMSIG_PAYLOAD = 1 << 1). -/
def RPMSIG_PAYLOAD : Nat := 2

/-- Verify flag requesting that payload items be treated as optional
(RPMVSF_NEEDPAYLOAD = 1 << 1 from rpmts.h). -/
def RPMVSF_NEEDPAYLOAD : Nat := 2

/-- The fields of struct rpmsinfo_s used by rpmchecksig.c: the signature
tag, the hash algorithm (0 meaning none usable), the digest id, the
disabler bit for the VerifyFlags mask, and the coverage range bitmask. -/
structure rpmsinfo_s where
  tag : SigTag
  hashalgo : Nat
  id : Nat
  disabler : Nat
  range : Nat
deriving DecidableEq, Repr

/-- One signature-header entry as seen through the collaborators: the
derived item description (rpmsinfoInit's sinfo output), the return code
and result text of rpmsinfoInit, and the return code and result text that
rpmVerifySignature yields for this item when invoked. -/
structure SigEntry where
  sinfo : rpmsinfo_s
  initRC : rpmRC
  initResult : String
  verifyRC : rpmRC
  verifyResult : String
deriving DecidableEq, Repr

/-- sinfoDisabled, lines 185-194: an item is disabled when it has no hash
algorithm, when its disabler bit is set in the flags, or when payload items
are optional and its range includes the payload. -/
def sinfoDisabled (sinfo : rpmsinfo_s) (vsflags : Nat) : Bool :=
  sinfo.hashalgo == 0 ||
  Nat.land vsflags sinfo.disabler != 0 ||
  (Nat.land vsflags RPMVSF_NEEDPAYLOAD != 0 &&
     Nat.land sinfo.range RPMSIG_PAYLOAD != 0)

/-- initDigests, lines 196-215: iterate the signature header; skip entries
whose derivation fails (nonzero rpmsinfoInit), skip disabled entries, and
attach a digest accumulator (fdInitDigestID call with hashalgo and id) for
each remaining entry whose range intersects the phase range. -/
def initDigests (range vsflags : Nat) (sigh : List SigEntry) : List (Nat × Nat) :=
  sigh.filterMap fun e =>
    if e.initRC != rpmRC.RPMRC_OK then none
    else if sinfoDisabled e.sinfo vsflags then none
    else if Nat.land e.sinfo.range range != 0 then some (e.sinfo.hashalgo, e.sinfo.id)
    else none

/-- The effective per-item result inside verifyItems' loop body for one
entry: when the entry's range equals the phase range and rpmsinfoInit
succeeded, rpmVerifySignature runs and its result is passed through the
callback (whose return value replaces rc); otherwise rc remains the
rpmsinfoInit return code. -/
def itemRC (range vsflags : Nat) (cb : rpmsinfo_s → rpmRC → String → rpmRC)
    (e : SigEntry) : rpmRC :=
  if e.sinfo.range == range && e.initRC == rpmRC.RPMRC_OK then
    cb e.sinfo e.verifyRC e.verifyResult
  else
    e.initRC

/-- Whether one entry sets verifyItems' failed flag: disabled entries are
skipped by the continue; any other entry with a non-OK effective result
sets failed = 1. -/
def entryFailed (range vsflags : Nat) (cb : rpmsinfo_s → rpmRC → String → rpmRC)
    (e : SigEntry) : Bool :=
  !(sinfoDisabled e.sinfo vsflags) && itemRC range vsflags cb e != rpmRC.RPMRC_OK

/-- verifyItems, lines 217-256: the returned failed flag. The C loop has
no break; every entry of the header is visited. -/
def verifyItems (range vsflags : Nat) (cb : rpmsinfo_s → rpmRC → String → rpmRC)
    (sigh : List SigEntry) : Bool :=
  sigh.any (entryFailed range vsflags cb)

/-- The entries of one verifyItems pass for which rpmVerifySignature and
the reporting callback are actually invoked: not disabled, range equal to
the phase range, and rpmsinfoInit succeeded. -/
def verifyItemsVerified (range vsflags : Nat) (sigh : List SigEntry) : List SigEntry :=
  sigh.filter fun e =>
    !(sinfoDisabled e.sinfo vsflags) &&
    e.sinfo.range == range && e.initRC == rpmRC.RPMRC_OK

/-- One package container as rpmpkgVerifySignatures observes it through
its collaborators, in call order: rpmLeadRead, hdrblobRead of the
signature header, hdrblobImport of the signature header (yielding the
entry list the header iterator walks), hdrblobRead of the main header,
hdrblobImport of the main header (yielding the payload-digest entries that
headerCopyTags appends to the signature header), and the payload read
(readFile). Each collaborator reports failure together with the message it
stores into msg. -/
structure Package where
  leadRead : Except String Unit
  sigblobRead : Except String Unit
  sigblobImport : Except String (List SigEntry)
  blobRead : Except String Unit
  blobImport : Except String (List SigEntry)
  payloadRead : Except String Unit

/-- Everything rpmpkgVerifySignatures produces or effects: the return
code, the msg present at exit, the fdInitDigestID attachments made, and
the entries for which rpmVerifySignature and the callback ran. -/
structure VerifyRun where
  rc : rpmRC
  msg : Option String
  attached : List (Nat × Nat)
  checked : List SigEntry
deriving Repr

/-- Bool to Nat, for the C idiom failed += verifyItems(...). -/
def b2n : Bool → Nat
  | true => 1
  | false => 0

/-- rpmpkgVerifySignatures, lines 258-321: read the lead, read and import
the signature header, attach header-range digests, read the main header,
verify header-range items, import the main header and copy its
payload-digest tags into the signature header, attach payload-range
digests, stream the payload, verify payload-range and combined-range
items; rc is OK only when no step aborted and no phase failed. -/
def rpmpkgVerifySignatures (vsflags : Nat)
    (cb : rpmsinfo_s → rpmRC → String → rpmRC) (pkg : Package) : VerifyRun :=
  match pkg.leadRead with
  | .error m => ⟨rpmRC.RPMRC_FAIL, some m, [], []⟩
  | .ok _ =>
  match pkg.sigblobRead with
  | .error m => ⟨rpmRC.RPMRC_FAIL, some m, [], []⟩
  | .ok _ =>
  match pkg.sigblobImport with
  | .error m => ⟨rpmRC.RPMRC_FAIL, some m, [], []⟩
  | .ok sigh =>
    let att1 := initDigests RPMSIG_HEADER vsflags sigh
    match pkg.blobRead with
    | .error m => ⟨rpmRC.RPMRC_FAIL, some m, att1, []⟩
    | .ok _ =>
      let failed1 := b2n (verifyItems RPMSIG_HEADER vsflags cb sigh)
      let chk1 := verifyItemsVerified RPMSIG_HEADER vsflags sigh
      match pkg.blobImport with
      | .error m => ⟨rpmRC.RPMRC_FAIL, some m, att1, chk1⟩
      | .ok copied =>
        let sigh2 := sigh ++ copied
        let att2 := initDigests RPMSIG_PAYLOAD vsflags sigh2
        match pkg.payloadRead with
        | .error m => ⟨rpmRC.RPMRC_FAIL, some m, att1 ++ att2, chk1⟩
        | .ok _ =>
          let failed2 := b2n (verifyItems RPMSIG_PAYLOAD vsflags cb sigh2)
          let failed3 :=
            b2n (verifyItems (Nat.lor RPMSIG_HEADER RPMSIG_PAYLOAD) vsflags cb sigh2)
          let chk2 := verifyItemsVerified RPMSIG_PAYLOAD vsflags sigh2
          let chk3 :=
            verifyItemsVerified (Nat.lor RPMSIG_HEADER RPMSIG_PAYLOAD) vsflags sigh2
          ⟨if failed1 + failed2 + failed3 == 0 then rpmRC.RPMRC_OK else rpmRC.RPMRC_FAIL,
           none, att1 ++ att2, chk1 ++ chk2 ++ chk3⟩

/-- The exit diagnostic of rpmpkgVerifySignatures, line 313-314: one
RPMLOG_ERR line is emitted exactly when rc is nonzero and msg is set. -/
def rpmpkgDiagCount (vsflags : Nat)
    (cb : rpmsinfo_s → rpmRC → String → rpmRC) (pkg : Package) : Nat :=
  let run := rpmpkgVerifySignatures vsflags cb pkg
  if run.rc != rpmRC.RPMRC_OK && run.msg.isSome then 1 else 0

/-- Whether some mandatory decode/read step of the package fails, i.e.
whether the pipeline takes a goto-exit fatal abort for this package. -/
def pkgAborted (pkg : Package) : Bool :=
  (match pkg.leadRead with | .ok _ => false | .error _ => true) ||
  (match pkg.sigblobRead with | .ok _ => false | .error _ => true) ||
  (match pkg.sigblobImport with | .ok _ => false | .error _ => true) ||
  (match pkg.blobRead with | .ok _ => false | .error _ => true) ||
  (match pkg.blobImport with | .ok _ => false | .error _ => true) ||
  (match pkg.payloadRead with | .ok _ => false | .error _ => true)

/-- formatVerbose, lines 136-140: log the full result line, return the
raw result unchanged. The pair is (returned result, emitted text). -/
def formatVerbose (sinfo : rpmsinfo_s) (sigres : rpmRC) (result : String) :
    rpmRC × String :=
  (sigres, "    " ++ result ++ "\n")

/-- formatDefault, lines 142-183: emit a short token (uppercase on
failure, parenthesized on NOKEY), return the raw result unchanged. -/
def formatDefault (sinfo : rpmsinfo_s) (sigres : rpmRC) (result : String) :
    rpmRC × String :=
  let upper := sigres != rpmRC.RPMRC_OK
  let signame :=
    match sinfo.tag with
    | SigTag.RPMSIGTAG_SIZE => if upper then "SIZE" else "size"
    | SigTag.RPMSIGTAG_SHA1 => if upper then "SHA1" else "sha1"
    | SigTag.RPMSIGTAG_SHA256 => if upper then "SHA256" else "sha256"
    | SigTag.RPMSIGTAG_MD5 => if upper then "MD5" else "md5"
    | SigTag.RPMSIGTAG_RSA => if upper then "RSA" else "rsa"
    | SigTag.RPMSIGTAG_PGP5 => if upper then "PGP" else "pgp"
    | SigTag.RPMSIGTAG_PGP => if upper then "PGP" else "pgp"
    | SigTag.RPMSIGTAG_DSA => if upper then "DSA" else "dsa"
    | SigTag.RPMSIGTAG_GPG => if upper then "GPG" else "gpg"
    | SigTag.RPMTAG_PAYLOADDIGEST => if upper then "PAYLOAD" else "payload"
    | SigTag.otherTag => if upper then "?UnknownSigatureType?" else "???"
  (sigres, if sigres == rpmRC.RPMRC_NOKEY then "(" ++ signame ++ ") " else signame ++ " ")

/-- The armor marker "-----BEGIN PGP " that doImport scans for (pgpmark,
line 31); its length marklen is 15. -/
def pgpmark : List Char := "-----BEGIN PGP ".data

/-- Whether the pattern (second argument) is an initial segment of the
buffer (first argument); char-by-char, as strncmp-style matching. -/
def listStartsWith : List Char → List Char → Bool
  | _, [] => true
  | [], _ :: _ => false
  | b :: bs, p :: ps => b == p && listStartsWith bs ps

/-- strstr restricted to start at offset i: the least position j with
i ≤ j at which the pattern occurs in the buffer. The model treats the
buffer as NUL-free text (armored key material is ASCII), so the C string
search over the slurped buffer is a plain substring search. -/
def strstrFrom (buf pat : List Char) (i : Nat) : Option Nat :=
  (List.range (buf.length + 1)).find? fun j =>
    decide (i ≤ j) && listStartsWith (buf.drop j) pat

/-- What pgpParsePkts reports for the armored block starting at one
marker position: either not a public-key armor, or a public-key armor
whose certificate walk yields the listed certificates in order
(pgpPubKeyCertLen succeeded for each; ok is the rpmtsImportPubkey
outcome, key identifies the certificate) and then either consumes the
packet exactly (lenFail = false) or hits a pgpPubKeyCertLen failure
(lenFail = true), which stops walking that block. -/
inductive BlockParse where
  | notPubkey
  | pubkey (certs : List (Nat × Bool)) (lenFail : Bool)
deriving DecidableEq, Repr

/-- One recorded import failure, tagged with the 1-based key index:
a buffer/block that is not an armored public key, a pgpPubKeyCertLen
failure, or a certificate rejected by rpmtsImportPubkey. -/
inductive ImpFail where
  | readFailed
  | notArmored (keyno : Nat)
  | lenFailed (keyno : Nat)
  | importRejected (keyno : Nat)
deriving DecidableEq, Repr

/-- The observable outcome of an import run: the failures counted by res
in order, the keys accepted into the keyring in order, and a trace of the
loop-body executions as (key index, marker position; none for the run of
the body with a NULL start pointer). -/
structure ImportResult where
  failures : List ImpFail
  keys : List Nat
  blocks : List (Nat × Option Nat)
deriving DecidableEq, Repr

/-- The failures and accepted keys produced by the body of doImport for
one block, lines 44-69: a non-pubkey parse records one notArmored
failure; a pubkey parse walks the certificates, recording a failure for
each rejected import, and one more if the walk ends in a
pgpPubKeyCertLen failure. -/
def blockOutcome (keyno : Nat) : BlockParse → List ImpFail × List Nat
  | BlockParse.notPubkey => ([ImpFail.notArmored keyno], [])
  | BlockParse.pubkey certs lenFail =>
      ((certs.filterMap fun c => if c.2 then none else some (ImpFail.importRejected keyno)) ++
         (if lenFail then [ImpFail.lenFailed keyno] else []),
       certs.filterMap fun c => if c.2 then some c.1 else none)

/-- The do-while loop of doImport, lines 37-80, entered with a non-NULL
start position: process the block at start, then rescan strictly past the
current marker (only when start + marklen is still inside the buffer) and
repeat while another marker is found; keyno increments every iteration. -/
def doImportGo (parseAt : Nat → BlockParse) (buf : List Char)
    (start keyno : Nat) : ImportResult :=
  let bo := blockOutcome keyno (parseAt start)
  if h1 : start + 15 < buf.length then
    match h2 : strstrFrom buf pgpmark (start + 15) with
    | some j =>
        let r := doImportGo parseAt buf j (keyno + 1)
        ⟨bo.1 ++ r.failures, bo.2 ++ r.keys, (keyno, some start) :: r.blocks⟩
    | none => ⟨bo.1, bo.2, [(keyno, some start)]⟩
  else ⟨bo.1, bo.2, [(keyno, some start)]⟩
termination_by buf.length + 16 - start
decreasing_by
  have hmem := List.mem_range.mp (List.mem_of_find?_eq_some h2)
  have hfound := List.find?_some h2
  simp only [Bool.and_eq_true, decide_eq_true_eq] at hfound
  omega

/-- doImport, lines 29-83. When the buffer holds no marker at all, start
is NULL, yet the do-while body still runs once: pgpParsePkts on a NULL
pointer cannot return PGPARMOR_PUBKEY, so that single run records one
notArmored failure for key 1 and ends (the rescan guard requires a
non-NULL start). -/
def doImport (parseAt : Nat → BlockParse) (buf : List Char) : ImportResult :=
  match strstrFrom buf pgpmark 0 with
  | some s => doImportGo parseAt buf s 1
  | none => ⟨[ImpFail.notArmored 1], [], [(1, none)]⟩

/-- The keyring after an import run: rpmtsImportPubkey mutates the
keyring in place for each accepted certificate. -/
def keyringAfter (kr : List Nat) (r : ImportResult) : List Nat :=
  kr ++ r.keys

/-- isxdigit from ctype.h on the portable hexadecimal digits. -/
def isxdigitC (c : Char) : Bool :=
  ('0' ≤ c && c ≤ '9') || ('a' ≤ c && c ≤ 'f') || ('A' ≤ c && c ≤ 'F')

/-- The counting loop of rpmcliImportPubkeys lines 98-100: the length of
the maximal run of hexadecimal digits at the front of the text (the C
loop stops at the terminating NUL, i.e. the end of the list). -/
def hexRunLen : List Char → Nat
  | [] => 0
  | c :: cs => if isxdigitC c then hexRunLen cs + 1 else 0

/-- The keyid test of rpmcliImportPubkeys lines 96-101: the argument
starts with the literal "0x" (rstreqn(fn, "0x", 2)) and the run of hex
digits after it has length exactly 8 or 16. -/
def keyidLike (fn : List Char) : Bool :=
  match fn with
  | c1 :: c2 :: rest =>
      c1 == '0' && c2 == 'x' && (hexRunLen rest == 8 || hexRunLen rest == 16)
  | _ => false

/-- Per-argument collaborator data for rpmcliImportPubkeys. rpmExpand is
external; the value it returns for
rpmExpand("%\x7b_hkp_keyserver_query\x7d", fn+2, NULL) is modelled as the
expansion of the template part (macroExp - the untouched literal
"%\x7b_hkp_keyserver_query\x7d" itself when the macro is undefined)
followed by the hex digits of the key id (which expand to themselves)
followed by the expansion of whatever trails the hex digits (suffixExp,
empty for a plain key-id argument). slurp is rpmioSlurp keyed by the
filename finally used, and parseAt gives pgpParsePkts' outcome per marker
position of the slurped buffer. -/
structure ImportArg where
  fn : List Char
  macroExp : List Char
  suffixExp : List Char
  slurp : List Char → Bool × List Char
  parseAt : Nat → BlockParse

/-- The string rpmExpand produces for a keyid-shaped argument (t in the
source, line 102). -/
def expandedT (arg : ImportArg) : List Char :=
  arg.macroExp ++ (arg.fn.drop 2).take (hexRunLen (arg.fn.drop 2)) ++ arg.suffixExp

/-- Lines 95-106 of rpmcliImportPubkeys: the filename actually fetched.
For a keyid-shaped argument the expansion t replaces fn unless t begins
with '%' (the C test is *t != '%', which an empty t would also pass,
yielding the empty filename). -/
def finalFn (arg : ImportArg) : List Char :=
  match arg.fn with
  | c1 :: c2 :: rest =>
      if c1 == '0' && c2 == 'x' && (hexRunLen rest == 8 || hexRunLen rest == 16) then
        match expandedT arg with
        | [] => []
        | c :: cs => if c == '%' then arg.fn else c :: cs
      else arg.fn
  | _ => arg.fn

/-- Whether an expansion result is usable in the spec's words: non-empty
and not starting with an unexpanded percent placeholder. -/
def usableExpansion (t : List Char) : Bool :=
  !t.isEmpty && t.head? != some '%'

/-- Modelled from the spec: the filename selection as section 4.1 words
it - a keyid-shaped literal is expanded through the keyserver-query
template, and the expansion replaces the source only when the result is
usable, otherwise the original literal is used verbatim. -/
def finalFnSpec (arg : ImportArg) : List Char :=
  if keyidLike arg.fn then
    if usableExpansion (expandedT arg) then expandedT arg else arg.fn
  else arg.fn

/-- Lines 108-115 of rpmcliImportPubkeys for one argument: slurp the
(possibly expanded) filename; an I/O error, a NULL buffer (both folded
into the slurp error flag) or a buffer shorter than 64 bytes counts one
failure with no parsing; otherwise doImport runs on the buffer. -/
def processArg (arg : ImportArg) : ImportResult :=
  let s := arg.slurp (finalFn arg)
  if s.1 || s.2.length < 64 then ⟨[ImpFail.readFailed], [], []⟩
  else doImport arg.parseAt s.2

/-- rpmcliImportPubkeys, lines 85-121: fold over the argument list,
adding each argument's failure count to res and appending each accepted
certificate to the keyring. -/
def rpmcliImportPubkeys (args : List ImportArg) (kr : List Nat) : Nat × List Nat :=
  args.foldl
    (fun acc arg =>
      let r := processArg arg
      (acc.1 + r.failures.length, keyringAfter acc.2 r))
    (0, kr)

/-- Concrete sample data used by witness theorems below. A callback that
passes the raw result through (as both real callbacks do). -/
def cb0 : rpmsinfo_s → rpmRC → String → rpmRC := fun _ r _ => r

/-- A header-range SHA256 entry that derives and verifies cleanly. -/
def entOK : SigEntry :=
  ⟨⟨SigTag.RPMSIGTAG_SHA256, 8, 33, 1024, RPMSIG_HEADER⟩, rpmRC.RPMRC_OK, "",
   rpmRC.RPMRC_OK, "Header SHA256 digest: OK"⟩

/-- A combined-range MD5 entry whose digest check fails. -/
def entBad : SigEntry :=
  ⟨⟨SigTag.RPMSIGTAG_MD5, 1, 34, 2048, Nat.lor RPMSIG_HEADER RPMSIG_PAYLOAD⟩,
   rpmRC.RPMRC_OK, "", rpmRC.RPMRC_FAIL, "MD5 digest: BAD"⟩

/-- A header-range entry whose derivation (rpmsinfoInit) fails while the
flags leave it enabled. -/
def entBadInit : SigEntry :=
  ⟨⟨SigTag.otherTag, 2, 35, 4096, RPMSIG_HEADER⟩, rpmRC.RPMRC_FAIL,
   "invalid signature entry", rpmRC.RPMRC_OK, ""⟩

/-- A payload-range entry with no usable hash algorithm, hence disabled. -/
def entDisabled : SigEntry :=
  ⟨⟨SigTag.RPMSIGTAG_SIZE, 0, 36, 8192, RPMSIG_PAYLOAD⟩, rpmRC.RPMRC_OK, "",
   rpmRC.RPMRC_OK, ""⟩

/-- A package whose mandatory decode steps all succeed, with the given
signature-header entries and copied payload-digest entries. -/
def pkgOf (sigh copied : List SigEntry) : Package :=
  ⟨.ok (), .ok (), .ok sigh, .ok (), .ok copied, .ok ()⟩

/-- A package whose lead read fails. -/
def pkgAbortW : Package :=
  ⟨.error "lead read failed", .ok (), .ok [entOK], .ok (), .ok [], .ok ()⟩

/-- A buffer with two armored blocks: markers at positions 0 and 32. -/
def bufTwoBlocks : List Char :=
  pgpmark ++ "xxxxxxxxxxxxxxxxx".data ++ pgpmark ++
    "yyyyyyyyyyyyyyyyyyyyyyyyyyyyyyyyy".data

/-- Parse outcomes for bufTwoBlocks: the block at 0 is malformed, the
block at 32 holds one certificate that imports as key 42. -/
def parseTwoBlocks : Nat → BlockParse := fun p =>
  if p == 32 then BlockParse.pubkey [(42, true)] false else BlockParse.notPubkey

/-- A 70-byte buffer containing no armor marker. -/
def bufNoMarker : List Char := List.replicate 70 'y'

/-- An import argument whose file reads as 63 bytes. -/
def argShort : ImportArg :=
  ⟨"short.key".data, [], [], fun _ => (false, List.replicate 63 'a'),
   fun _ => BlockParse.notPubkey⟩

/-- An import argument of key-id form with a configured keyserver
template that expands to a URL. -/
def argKeyid : ImportArg :=
  ⟨"0x0123456789abcdef".data,
   "http://keys.example/pks/lookup?op=get&search=0x".data, [],
   fun _ => (true, []), fun _ => BlockParse.notPubkey⟩

theorem verifyItems_eq_false_iff (range vsflags : Nat)
    (cb : rpmsinfo_s → rpmRC → String → rpmRC) (l : List SigEntry) :
    verifyItems range vsflags cb l = false ↔
      ∀ e ∈ l, sinfoDisabled e.sinfo vsflags = false →
        itemRC range vsflags cb e = rpmRC.RPMRC_OK := by
  simp only [verifyItems, List.any_eq_false, entryFailed, Bool.and_eq_true,
    Bool.not_eq_true', bne_iff_ne, ne_eq, not_and, not_not]

theorem rc_of_failed_eq_ok_iff (a b c : Bool) :
    ((if b2n a + b2n b + b2n c == 0 then rpmRC.RPMRC_OK else rpmRC.RPMRC_FAIL) =
        rpmRC.RPMRC_OK) ↔ (a = false ∧ b = false ∧ c = false) := by
  cases a <;> cases b <;> cases c <;> simp [b2n]

theorem strstrFrom_ge {buf pat : List Char} {i j : Nat}
    (h : strstrFrom buf pat i = some j) : i ≤ j := by
  have := List.find?_some h
  simp only [Bool.and_eq_true, decide_eq_true_eq] at this
  exact this.1

theorem strstrFrom_eq_none {buf pat : List Char} (i : Nat) (hpat : pat ≠ [])
    (h : ∀ j, j < buf.length → listStartsWith (buf.drop j) pat = false) :
    strstrFrom buf pat i = none := by
  apply List.find?_eq_none.mpr
  intro j hj
  have hj' : j < buf.length + 1 := List.mem_range.mp hj
  simp only [Bool.and_eq_true, decide_eq_true_eq, not_and]
  intro _
  by_cases hlt : j < buf.length
  · simp [h j hlt]
  · have : j = buf.length := by omega
    subst this
    rw [List.drop_length]
    match pat, hpat with
    | p :: ps, _ => simp [listStartsWith]

theorem doImportGo_last (parseAt : Nat → BlockParse) (buf : List Char)
    (p keyno : Nat)
    (h4 : p + 15 < buf.length → strstrFrom buf pgpmark (p + 15) = none) :
    doImportGo parseAt buf p keyno =
      ⟨(blockOutcome keyno (parseAt p)).1, (blockOutcome keyno (parseAt p)).2,
       [(keyno, some p)]⟩ := by
  unfold doImportGo
  by_cases hc : p + 15 < buf.length
  · simp only [hc, dif_pos]
    rw [h4 hc]
  · simp only [hc, dif_neg, not_false_eq_true]

theorem doImportGo_step (parseAt : Nat → BlockParse) (buf : List Char)
    (p j keyno : Nat)
    (h2 : p + 15 < buf.length)
    (h3 : strstrFrom buf pgpmark (p + 15) = some j) :
    doImportGo parseAt buf p keyno =
      ⟨(blockOutcome keyno (parseAt p)).1 ++
         (doImportGo parseAt buf j (keyno + 1)).failures,
       (blockOutcome keyno (parseAt p)).2 ++
         (doImportGo parseAt buf j (keyno + 1)).keys,
       (keyno, some p) :: (doImportGo parseAt buf j (keyno + 1)).blocks⟩ := by
  conv_lhs => rw [doImportGo]
  simp only [h2, dif_pos]
  rw [h3]

/-- C7: both reporting callbacks return the raw result they were given
unchanged, so for every package and flag set the pipeline's outcome is
identical under verbose and summary reporting; the emitted text is the
only difference. -/
theorem format_callbacks_preserve_outcome :
    (∀ s r t, (formatVerbose s r t).1 = r) ∧
    (∀ s r t, (formatDefault s r t).1 = r) ∧
    (∀ vsflags pkg,
      (rpmpkgVerifySignatures vsflags (fun s r t => (formatVerbose s r t).1) pkg).rc =
        (rpmpkgVerifySignatures vsflags (fun s r t => (formatDefault s r t).1) pkg).rc) := by
  refine ⟨fun s r t => rfl, fun s r t => rfl, fun vsflags pkg => ?_⟩
  rfl

/-- C8: a container whose lead, signature header, main header and payload
all decode, whose signature header holds zero signature/digest entries
and whose main header contributes no copied payload-digest entries,
verifies OK vacuously: no accumulator is attached and no item is
verified. -/
theorem zero_entry_container_ok (vsflags : Nat)
    (cb : rpmsinfo_s → rpmRC → String → rpmRC) (pkg : Package)
    (h1 : pkg.leadRead = .ok ()) (h2 : pkg.sigblobRead = .ok ())
    (h3 : pkg.sigblobImport = .ok []) (h4 : pkg.blobRead = .ok ())
    (h5 : pkg.blobImport = .ok []) (h6 : pkg.payloadRead = .ok ()) :
    (rpmpkgVerifySignatures vsflags cb pkg).rc = rpmRC.RPMRC_OK ∧
    (rpmpkgVerifySignatures vsflags cb pkg).attached = [] ∧
    (rpmpkgVerifySignatures vsflags cb pkg).checked = [] := by
  simp [rpmpkgVerifySignatures, h1, h2, h3, h4, h5, h6, initDigests,
    verifyItems, verifyItemsVerified, b2n]

/-- Witness for C8 at a concrete entry-free package. -/
theorem zero_entry_container_ok_witness :
    (rpmpkgVerifySignatures 0 cb0 (pkgOf [] [])).rc = rpmRC.RPMRC_OK ∧
    (rpmpkgVerifySignatures 0 cb0 (pkgOf [] [])).attached = [] ∧
    (rpmpkgVerifySignatures 0 cb0 (pkgOf [] [])).checked = [] :=
  zero_entry_container_ok 0 cb0 (pkgOf [] []) rfl rfl rfl rfl rfl rfl

/-- C10: an entry whose derivation failed with a non-OK rpmsinfoInit
result and which the flags leave enabled sets the failed flag of every
verifyItems pass that iterates over it, whatever the phase range, and
rpmVerifySignature and the reporting callback are never invoked for it. -/
theorem initfail_entry_fails_every_phase (range vsflags : Nat)
    (cb : rpmsinfo_s → rpmRC → String → rpmRC) (e : SigEntry)
    (l1 l2 : List SigEntry)
    (hdis : sinfoDisabled e.sinfo vsflags = false)
    (hrc : e.initRC ≠ rpmRC.RPMRC_OK) :
    verifyItems range vsflags cb (l1 ++ e :: l2) = true ∧
    verifyItemsVerified range vsflags (l1 ++ e :: l2) =
      verifyItemsVerified range vsflags l1 ++ verifyItemsVerified range vsflags l2 := by
  have hef : entryFailed range vsflags cb e = true := by
    simp [entryFailed, hdis, itemRC, hrc]
  constructor
  · simp [verifyItems, List.any_append, hef]
  · simp [verifyItemsVerified, List.filter_append, List.filter_cons, hrc]

/-- Witness for C10 at a concrete entry with failed derivation. -/
theorem initfail_entry_fails_every_phase_witness :
    verifyItems RPMSIG_PAYLOAD 0 cb0 ([entOK] ++ entBadInit :: [entBad]) = true ∧
    verifyItemsVerified RPMSIG_PAYLOAD 0 ([entOK] ++ entBadInit :: [entBad]) =
      verifyItemsVerified RPMSIG_PAYLOAD 0 [entOK] ++
        verifyItemsVerified RPMSIG_PAYLOAD 0 [entBad] :=
  initfail_entry_fails_every_phase RPMSIG_PAYLOAD 0 cb0 entBadInit [entOK] [entBad]
    (by decide) (by decide)

/-- C2: a non-OK effective result never stops the loop - verifyItems over
a concatenation decomposes position-independently, both for the failed
flag and for the set of items actually checked (so items after a failure
are still evaluated), and at file level the three phases contribute
additively: the package passes exactly when no phase failed. -/
theorem nonok_result_never_stops_processing (range vsflags : Nat)
    (cb : rpmsinfo_s → rpmRC → String → rpmRC) (l1 l2 : List SigEntry)
    (pkg : Package) (sigh copied : List SigEntry)
    (h1 : pkg.leadRead = .ok ()) (h2 : pkg.sigblobRead = .ok ())
    (h3 : pkg.sigblobImport = .ok sigh) (h4 : pkg.blobRead = .ok ())
    (h5 : pkg.blobImport = .ok copied) (h6 : pkg.payloadRead = .ok ()) :
    verifyItems range vsflags cb (l1 ++ l2) =
      (verifyItems range vsflags cb l1 || verifyItems range vsflags cb l2) ∧
    verifyItemsVerified range vsflags (l1 ++ l2) =
      verifyItemsVerified range vsflags l1 ++ verifyItemsVerified range vsflags l2 ∧
    ((rpmpkgVerifySignatures vsflags cb pkg).rc = rpmRC.RPMRC_OK ↔
      (verifyItems RPMSIG_HEADER vsflags cb sigh = false ∧
       verifyItems RPMSIG_PAYLOAD vsflags cb (sigh ++ copied) = false ∧
       verifyItems (Nat.lor RPMSIG_HEADER RPMSIG_PAYLOAD) vsflags cb (sigh ++ copied) = false)) := by
  refine ⟨List.any_append, by simp [verifyItemsVerified, List.filter_append], ?_⟩
  simp only [rpmpkgVerifySignatures, h1, h2, h3, h4, h5, h6]
  exact rc_of_failed_eq_ok_iff _ _ _

/-- Witness for C2: a failing combined-range item before an OK item. -/
theorem nonok_result_never_stops_processing_witness :
    verifyItems RPMSIG_HEADER 0 cb0 ([entBad] ++ [entOK]) =
      (verifyItems RPMSIG_HEADER 0 cb0 [entBad] || verifyItems RPMSIG_HEADER 0 cb0 [entOK]) ∧
    verifyItemsVerified RPMSIG_HEADER 0 ([entBad] ++ [entOK]) =
      verifyItemsVerified RPMSIG_HEADER 0 [entBad] ++ verifyItemsVerified RPMSIG_HEADER 0 [entOK] ∧
    ((rpmpkgVerifySignatures 0 cb0 (pkgOf [entOK] [entBad])).rc = rpmRC.RPMRC_OK ↔
      (verifyItems RPMSIG_HEADER 0 cb0 [entOK] = false ∧
       verifyItems RPMSIG_PAYLOAD 0 cb0 ([entOK] ++ [entBad]) = false ∧
       verifyItems (Nat.lor RPMSIG_HEADER RPMSIG_PAYLOAD) 0 cb0 ([entOK] ++ [entBad]) = false)) :=
  nonok_result_never_stops_processing RPMSIG_HEADER 0 cb0 [entBad] [entOK]
    (pkgOf [entOK] [entBad]) [entOK] [entBad] rfl rfl rfl rfl rfl rfl

/-- C3: for an entry whose range is one of the three documented coverage
ranges, the disablement predicate sinfoDisabled (no usable hash
algorithm, disabler bit set in the flags, or payload optional with a
payload-covering range) holds exactly when the entry is skipped
everywhere: no accumulator attachment in either initDigests phase, no
verification and no callback in any verifyItems phase, and no
contribution to any phase's failed flag. -/
theorem sinfoDisabled_iff_skipped_everywhere (vsflags : Nat)
    (cb : rpmsinfo_s → rpmRC → String → rpmRC) (e : SigEntry)
    (hr : e.sinfo.range = RPMSIG_HEADER ∨ e.sinfo.range = RPMSIG_PAYLOAD ∨
      e.sinfo.range = Nat.lor RPMSIG_HEADER RPMSIG_PAYLOAD) :
    sinfoDisabled e.sinfo vsflags = true ↔
      (initDigests RPMSIG_HEADER vsflags [e] = [] ∧
       initDigests RPMSIG_PAYLOAD vsflags [e] = [] ∧
       verifyItemsVerified RPMSIG_HEADER vsflags [e] = [] ∧
       verifyItemsVerified RPMSIG_PAYLOAD vsflags [e] = [] ∧
       verifyItemsVerified (Nat.lor RPMSIG_HEADER RPMSIG_PAYLOAD) vsflags [e] = [] ∧
       verifyItems RPMSIG_HEADER vsflags cb [e] = false ∧
       verifyItems RPMSIG_PAYLOAD vsflags cb [e] = false ∧
       verifyItems (Nat.lor RPMSIG_HEADER RPMSIG_PAYLOAD) vsflags cb [e] = false) := by
  constructor
  · intro hdis
    refine ⟨?_, ?_, ?_, ?_, ?_, ?_, ?_, ?_⟩ <;>
      simp [initDigests, verifyItemsVerified, verifyItems, entryFailed, hdis, ite_self]
  · intro h
    by_contra hdis'
    have hdis : sinfoDisabled e.sinfo vsflags = false := by
      cases hh : sinfoDisabled e.sinfo vsflags
      · rfl
      · exact absurd hh hdis'
    by_cases hi : e.initRC = rpmRC.RPMRC_OK
    · have hland1 : Nat.land (1 : Nat) 1 = 1 := by decide
      have hland2 : Nat.land (2 : Nat) 2 = 2 := by decide
      have hland31 : Nat.land (3 : Nat) 1 = 1 := by decide
      rcases hr with h1 | h2 | h3
      · have := h.1
        simp [initDigests, hi, hdis, h1, RPMSIG_HEADER, hland1] at this
      · have := h.2.1
        simp [initDigests, hi, hdis, h2, RPMSIG_PAYLOAD, hland2] at this
      · have hl : Nat.land (Nat.lor 1 2) 1 = 1 := by decide
        have := h.1
        simp [initDigests, hi, hdis, h3, RPMSIG_HEADER, RPMSIG_PAYLOAD, hl] at this
    · have := h.2.2.2.2.2.1
      simp [verifyItems, entryFailed, hdis, itemRC, hi] at this

/-- Witness for C3 at a concrete disabled payload entry. -/
theorem sinfoDisabled_iff_skipped_everywhere_witness :
    sinfoDisabled entDisabled.sinfo 0 = true ↔
      (initDigests RPMSIG_HEADER 0 [entDisabled] = [] ∧
       initDigests RPMSIG_PAYLOAD 0 [entDisabled] = [] ∧
       verifyItemsVerified RPMSIG_HEADER 0 [entDisabled] = [] ∧
       verifyItemsVerified RPMSIG_PAYLOAD 0 [entDisabled] = [] ∧
       verifyItemsVerified (Nat.lor RPMSIG_HEADER RPMSIG_PAYLOAD) 0 [entDisabled] = [] ∧
       verifyItems RPMSIG_HEADER 0 cb0 [entDisabled] = false ∧
       verifyItems RPMSIG_PAYLOAD 0 cb0 [entDisabled] = false ∧
       verifyItems (Nat.lor RPMSIG_HEADER RPMSIG_PAYLOAD) 0 cb0 [entDisabled] = false) :=
  sinfoDisabled_iff_skipped_everywhere 0 cb0 entDisabled (Or.inr (Or.inl (by decide)))

/-- C1: the pipeline returns OK exactly when the lead, the signature
header, the main header and the payload all decoded and every enabled
item in every phase (HEADER over the signature header; PAYLOAD and
HEADER-and-PAYLOAD over the signature header extended by the copied
payload-digest entries) had an OK effective result; every other outcome
is FAIL, and a fatal abort emits exactly one diagnostic line for the
file while a per-item failure emits none at exit. -/
theorem rpmpkgVerifySignatures_ok_iff (vsflags : Nat)
    (cb : rpmsinfo_s → rpmRC → String → rpmRC) (pkg : Package) :
    ((rpmpkgVerifySignatures vsflags cb pkg).rc = rpmRC.RPMRC_OK ↔
      (∃ sigh copied,
        pkg.leadRead = .ok () ∧ pkg.sigblobRead = .ok () ∧
        pkg.sigblobImport = .ok sigh ∧ pkg.blobRead = .ok () ∧
        pkg.blobImport = .ok copied ∧ pkg.payloadRead = .ok () ∧
        (∀ e ∈ sigh, sinfoDisabled e.sinfo vsflags = false →
          itemRC RPMSIG_HEADER vsflags cb e = rpmRC.RPMRC_OK) ∧
        (∀ e ∈ sigh ++ copied, sinfoDisabled e.sinfo vsflags = false →
          itemRC RPMSIG_PAYLOAD vsflags cb e = rpmRC.RPMRC_OK) ∧
        (∀ e ∈ sigh ++ copied, sinfoDisabled e.sinfo vsflags = false →
          itemRC (Nat.lor RPMSIG_HEADER RPMSIG_PAYLOAD) vsflags cb e = rpmRC.RPMRC_OK))) ∧
    ((rpmpkgVerifySignatures vsflags cb pkg).rc = rpmRC.RPMRC_OK ∨
      (rpmpkgVerifySignatures vsflags cb pkg).rc = rpmRC.RPMRC_FAIL) ∧
    (pkgAborted pkg = true → rpmpkgDiagCount vsflags cb pkg = 1) ∧
    (pkgAborted pkg = false → rpmpkgDiagCount vsflags cb pkg = 0) := by
  obtain ⟨l, sr, si, br, bi, pr⟩ := pkg
  cases l with
  | error m => simp [rpmpkgVerifySignatures, rpmpkgDiagCount, pkgAborted]
  | ok ul =>
  cases sr with
  | error m => simp [rpmpkgVerifySignatures, rpmpkgDiagCount, pkgAborted]
  | ok usr =>
  cases si with
  | error m => simp [rpmpkgVerifySignatures, rpmpkgDiagCount, pkgAborted]
  | ok sigh =>
  cases br with
  | error m => simp [rpmpkgVerifySignatures, rpmpkgDiagCount, pkgAborted]
  | ok ubr =>
  cases bi with
  | error m => simp [rpmpkgVerifySignatures, rpmpkgDiagCount, pkgAborted]
  | ok copied =>
  cases pr with
  | error m => simp [rpmpkgVerifySignatures, rpmpkgDiagCount, pkgAborted]
  | ok upr =>
    refine ⟨?_, ?_, ?_, ?_⟩
    · simp only [rpmpkgVerifySignatures]
      rw [rc_of_failed_eq_ok_iff, verifyItems_eq_false_iff, verifyItems_eq_false_iff,
        verifyItems_eq_false_iff]
      simp
    · simp only [rpmpkgVerifySignatures]
      by_cases hc : (b2n (verifyItems RPMSIG_HEADER vsflags cb sigh) +
          b2n (verifyItems RPMSIG_PAYLOAD vsflags cb (sigh ++ copied)) +
          b2n (verifyItems (Nat.lor RPMSIG_HEADER RPMSIG_PAYLOAD) vsflags cb
            (sigh ++ copied)) == 0) = true
      · simp [hc]
      · simp [hc]
    · intro hab
      simp [pkgAborted] at hab
    · intro _
      simp [rpmpkgDiagCount, rpmpkgVerifySignatures]

/-- Witness for C1 applying the fatal-abort and clean-run diagnostic
parts at concrete packages. -/
theorem rpmpkgVerifySignatures_ok_iff_witness :
    rpmpkgDiagCount 0 cb0 pkgAbortW = 1 ∧
    rpmpkgDiagCount 0 cb0 (pkgOf [entBad] []) = 0 :=
  ⟨(rpmpkgVerifySignatures_ok_iff 0 cb0 pkgAbortW).2.2.1 (by decide),
   (rpmpkgVerifySignatures_ok_iff 0 cb0 (pkgOf [entBad] [])).2.2.2 (by decide)⟩

/-- C4: a buffer whose marker scan finds a first block that is not a
public-key armor and a second block holding one importable certificate
yields failure count 1 while the second block's key lands in the
keyring; the key index increments across both blocks (trace (1, p1),
(2, p2)), so a bad block never prevents scanning past its marker. -/
theorem doImport_bad_then_good_block (parseAt : Nat → BlockParse)
    (buf : List Char) (p1 p2 k : Nat) (kr : List Nat)
    (h1 : strstrFrom buf pgpmark 0 = some p1)
    (h2 : p1 + 15 < buf.length)
    (h3 : strstrFrom buf pgpmark (p1 + 15) = some p2)
    (h4 : p2 + 15 < buf.length → strstrFrom buf pgpmark (p2 + 15) = none)
    (hp1 : parseAt p1 = BlockParse.notPubkey)
    (hp2 : parseAt p2 = BlockParse.pubkey [(k, true)] false) :
    doImport parseAt buf =
      ⟨[ImpFail.notArmored 1], [k], [(1, some p1), (2, some p2)]⟩ ∧
    (doImport parseAt buf).failures.length = 1 ∧
    k ∈ keyringAfter kr (doImport parseAt buf) := by
  have e2 : doImportGo parseAt buf p2 2 = ⟨[], [k], [(2, some p2)]⟩ := by
    rw [doImportGo_last parseAt buf p2 2 h4, hp2]
    simp [blockOutcome]
  have e1 : doImportGo parseAt buf p1 1 =
      ⟨[ImpFail.notArmored 1], [k], [(1, some p1), (2, some p2)]⟩ := by
    rw [doImportGo_step parseAt buf p1 p2 1 h2 h3, e2, hp1]
    simp [blockOutcome]
  have hall : doImport parseAt buf =
      ⟨[ImpFail.notArmored 1], [k], [(1, some p1), (2, some p2)]⟩ := by
    rw [doImport, h1]
    exact e1
  refine ⟨hall, ?_, ?_⟩
  · simp [hall]
  · simp [hall, keyringAfter]

/-- Witness for C4 at a concrete two-block buffer. -/
theorem doImport_bad_then_good_block_witness :
    doImport parseTwoBlocks bufTwoBlocks =
      ⟨[ImpFail.notArmored 1], [42], [(1, some 0), (2, some 32)]⟩ ∧
    (doImport parseTwoBlocks bufTwoBlocks).failures.length = 1 ∧
    42 ∈ keyringAfter [7] (doImport parseTwoBlocks bufTwoBlocks) :=
  doImport_bad_then_good_block parseTwoBlocks bufTwoBlocks 0 32 42 [7]
    (by decide) (by decide) (by decide) (fun hlt => by decide)
    (by decide) (by decide)

/-- C9: a buffer of 64 bytes or more containing no armor marker still
runs the import loop body exactly once (the do-while tests its condition
only after the body): one notArmored failure for key index 1 is
recorded, and the keyring is unchanged. -/
theorem doImport_no_marker_runs_once (parseAt : Nat → BlockParse)
    (buf : List Char) (kr : List Nat)
    (hlen : 64 ≤ buf.length)
    (hno : ∀ j, j < buf.length → listStartsWith (buf.drop j) pgpmark = false) :
    doImport parseAt buf = ⟨[ImpFail.notArmored 1], [], [(1, none)]⟩ ∧
    (doImport parseAt buf).blocks.length = 1 ∧
    keyringAfter kr (doImport parseAt buf) = kr := by
  have h0 : strstrFrom buf pgpmark 0 = none :=
    strstrFrom_eq_none 0 (by simp [pgpmark]) hno
  have hall : doImport parseAt buf = ⟨[ImpFail.notArmored 1], [], [(1, none)]⟩ := by
    rw [doImport, h0]
  refine ⟨hall, ?_, ?_⟩
  · simp [hall]
  · simp [hall, keyringAfter]

/-- Witness for C9 at a concrete marker-free 70-byte buffer. -/
theorem doImport_no_marker_runs_once_witness :
    doImport parseTwoBlocks bufNoMarker = ⟨[ImpFail.notArmored 1], [], [(1, none)]⟩ ∧
    (doImport parseTwoBlocks bufNoMarker).blocks.length = 1 ∧
    keyringAfter [7] (doImport parseTwoBlocks bufNoMarker) = [7] :=
  doImport_no_marker_runs_once parseTwoBlocks bufNoMarker [7]
    (by decide) (by decide)

/-- C5: the keyserver-expansion path is taken exactly for literals that
begin with "0x" followed by a maximal hex-digit run of exactly 8 or 16;
the expansion result is then never empty (it contains the hex digits of
the key id), so the code's test that it not start with '%' coincides
with the spec's usability condition, and finalFn equals the
spec-modelled selection finalFnSpec: the expansion replaces the source
exactly when usable, otherwise the literal is used verbatim. -/
theorem keyid_expansion_policy (arg : ImportArg) :
    finalFn arg = finalFnSpec arg ∧
    (keyidLike arg.fn = true ↔
      ∃ rest, arg.fn = '0' :: 'x' :: rest ∧
        (hexRunLen rest = 8 ∨ hexRunLen rest = 16)) ∧
    (keyidLike arg.fn = false → finalFn arg = arg.fn) ∧
    (keyidLike arg.fn = true → expandedT arg ≠ []) := by
  obtain ⟨fn, mac, suf, sl, pa⟩ := arg
  cases fn with
  | nil => simp [finalFn, finalFnSpec, keyidLike]
  | cons c1 tl =>
    cases tl with
    | nil => simp [finalFn, finalFnSpec, keyidLike]
    | cons c2 rest =>
      by_cases hk : (c1 == '0' && c2 == 'x' &&
          (hexRunLen rest == 8 || hexRunLen rest == 16)) = true
      · have hk' := hk
        simp only [Bool.and_eq_true, Bool.or_eq_true, beq_iff_eq] at hk'
        obtain ⟨⟨hc1, hc2⟩, hor⟩ := hk'
        subst hc1
        subst hc2
        have hX : (hexRunLen rest == 8 || hexRunLen rest == 16) = true := by
          rcases hor with h | h <;> simp [h]
        have hkl : keyidLike ('0' :: 'x' :: rest) = true := by
          simp [keyidLike, hX]
        have hn0 : hexRunLen rest ≠ 0 := by
          rcases hor with h | h <;> omega
        have hrest : rest ≠ [] := by
          intro h
          subst h
          simp [hexRunLen] at hor
        have htake : rest.take (hexRunLen rest) ≠ [] := by
          intro h
          rcases List.take_eq_nil_iff.mp h with h' | h'
          · exact hn0 h'
          · exact hrest h'
        have hdrop : List.drop 2 ('0' :: 'x' :: rest) = rest := rfl
        have htne : expandedT ⟨'0' :: 'x' :: rest, mac, suf, sl, pa⟩ ≠ [] := by
          intro hemp
          rw [expandedT] at hemp
          simp only [hdrop, List.append_eq_nil] at hemp
          exact htake hemp.1.2
        refine ⟨?_, ⟨fun _ => ⟨rest, rfl, hor⟩, fun _ => hkl⟩,
          fun h => by simp [h] at hkl, fun _ => htne⟩
        cases ht : expandedT ⟨'0' :: 'x' :: rest, mac, suf, sl, pa⟩ with
        | nil => exact absurd ht htne
        | cons c cs =>
          by_cases hc : (c == '%') = true
          · have hceq : c = '%' := beq_iff_eq.mp hc
            subst hceq
            simp [finalFn, finalFnSpec, hk, ht, hkl, usableExpansion]
          · have hcne : c ≠ '%' := fun h => hc (beq_iff_eq.mpr h)
            rcases hor with h8 | h8 <;>
              simp [finalFn, finalFnSpec, h8, ht, hkl, usableExpansion, hcne]
      · rw [Bool.not_eq_true] at hk
        have hkl : keyidLike (c1 :: c2 :: rest) = false := by
          simp only [keyidLike]
          exact hk
        have hff : finalFn ⟨c1 :: c2 :: rest, mac, suf, sl, pa⟩ = c1 :: c2 :: rest := by
          simp [finalFn, hk]
        refine ⟨?_, ?_, fun _ => hff, fun h => by simp [h] at hkl⟩
        · rw [hff, finalFnSpec]
          simp [hkl]
        · simp only [hkl, Bool.false_eq_true, false_iff]
          rintro ⟨rest', heq, hor⟩
          injection heq with h1 heq'
          injection heq' with h2 h3
          subst h1
          subst h2
          subst h3
          rcases hor with h | h <;> simp [h] at hk

/-- Witness for C5 at a concrete 16-hex-digit key-id argument. -/
theorem keyid_expansion_policy_witness :
    finalFn argKeyid = finalFnSpec argKeyid ∧ expandedT argKeyid ≠ [] :=
  ⟨(keyid_expansion_policy argKeyid).1,
   (keyid_expansion_policy argKeyid).2.2.2 (by decide)⟩

/-- C6: an import source whose read succeeds but returns fewer than 64
bytes is rejected before any parse: exactly one failure is counted, no
block scan runs (empty block trace), and the keyring is unchanged. -/
theorem short_buffer_rejected (arg : ImportArg) (kr : List Nat)
    (herr : (arg.slurp (finalFn arg)).1 = false)
    (hlen : (arg.slurp (finalFn arg)).2.length < 64) :
    processArg arg = ⟨[ImpFail.readFailed], [], []⟩ ∧
    (processArg arg).failures.length = 1 ∧
    (processArg arg).blocks = [] ∧
    keyringAfter kr (processArg arg) = kr := by
  have hp : processArg arg = ⟨[ImpFail.readFailed], [], []⟩ := by
    rw [processArg]
    simp [herr, hlen]
  refine ⟨hp, ?_, ?_, ?_⟩ <;> simp [hp, keyringAfter]

/-- Witness for C6 at a concrete 63-byte read. -/
theorem short_buffer_rejected_witness :
    processArg argShort = ⟨[ImpFail.readFailed], [], []⟩ ∧
    (processArg argShort).failures.length = 1 ∧
    (processArg argShort).blocks = [] ∧
    keyringAfter [7] (processArg argShort) = [7] :=
  short_buffer_rejected argShort [7] (by rfl) (by decide)
